import Mathlib

/-
Verification of the custody-and-withdrawal guard subsystem of the governance
program, and of the lending-market CLI's payer-balance check.

The governance withdraw processor itself is not among the provided source
files (only its integration tests under
src/governance/program/tests/process_withdraw_governing_tokens.rs are), so the
`Governance` definitions below are modelled from the specification
(spec.md sections 3, 4 and 7), faithful to its words; each such definition's
doc comment starts with "Modelled from the spec:".  The `TokenLendingCli`
definitions are embedded directly from src/token-lending/cli/src/main.rs.
-/

namespace Governance

/-- Modelled from the spec: account identities are abstract values produced by
a collision-resistant derivation; we realise them as naturals so the
derivation can be an injective pairing.  The source uses platform public
keys. -/
abbrev Identity := Nat

/-- Modelled from the spec: `token_type ∈ {Liquid, Membership, Dormant}`
(spec section 3, GoverningTokenConfig). -/
inductive GoverningTokenType
  | Liquid
  | Membership
  | Dormant
deriving DecidableEq, Repr

/-- Modelled from the spec: an element of a record's lock set,
`{lock_id, authority, optional expiry}` (spec section 3, TokenOwnerRecord). -/
structure TokenOwnerRecordLock where
  lock_id : Nat
  authority : Identity
  expiry : Option Nat
deriving DecidableEq, Repr

/-- Modelled from the spec: the per `(realm, governing_token_mint, owner)`
custody ledger with deposit amount, vote/proposal counters and lock set
(spec section 3, TokenOwnerRecord). -/
structure TokenOwnerRecord where
  realm : Identity
  governing_token_mint : Identity
  governing_token_owner : Identity
  deposit_amount : Nat
  unrelinquished_votes_count : Nat
  outstanding_proposal_count : Nat
  locks : List TokenOwnerRecordLock
deriving DecidableEq, Repr

/-- Modelled from the spec: the closed error taxonomy of spec section 7. -/
inductive GovernanceError
  | OwnerMustSign
  | InvalidRecordAddress
  | InvalidHoldingAccount
  | CannotWithdrawMembershipTokens
  | VotesMustBeRelinquished
  | ProposalsMustBeFinalised
  | RecordLocked
  | UnauthorizedLockAuthority
  | LockNotFound
deriving DecidableEq, Repr

/-- Modelled from the spec: the canonical address of a token owner record is a
deterministic, collision-resistant function of
`(program, role, realm, governing_token_mint, owner)` (spec section 4.1);
realised with the injective `Nat.pair`, role tag 1. -/
def get_token_owner_record_address (program_id realm mint owner : Identity) :
    Identity :=
  Nat.pair 1 (Nat.pair program_id (Nat.pair realm (Nat.pair mint owner)))

/-- Modelled from the spec: the realm's canonical holding account for a
governing token mint, derived from `(program, role, realm, mint)`
(spec sections 4.1 and 4.2 step 3); role tag 2. -/
def get_governing_token_holding_address (program_id realm mint : Identity) :
    Identity :=
  Nat.pair 2 (Nat.pair program_id (Nat.pair realm mint))

/-- Modelled from the spec: the caller-supplied, order-significant parameters
of a withdrawal request (spec section 6), together with whether the owner
co-signed the request. -/
structure WithdrawRequest where
  realm : Identity
  governing_token_mint : Identity
  governing_token_owner : Identity
  holding_account : Identity
  destination_account : Identity
  token_owner_record_address : Identity
  owner_signed : Bool
deriving DecidableEq, Repr

/-- Modelled from the spec: the state a withdrawal or deposit touches: the
token owner record, the realm holding account balance, and the owner's own
token account balance (the deposit source, which the tests also use as the
withdrawal destination). -/
structure CustodyState where
  record : TokenOwnerRecord
  holding_amount : Nat
  source_amount : Nat
deriving DecidableEq, Repr

/-- Modelled from the spec: a lock is expired when an expiry is set and has
passed (spec section 4.4). -/
def lock_expired (now : Nat) (l : TokenOwnerRecordLock) : Bool :=
  match l.expiry with
  | none => false
  | some e => e < now

/-- Modelled from the spec: the withdrawal guard's lock check consults the
record's lock set, treating expired locks as absent (spec sections 4.2
step 7 and 4.4). -/
def has_unexpired_lock (now : Nat) (r : TokenOwnerRecord) : Bool :=
  r.locks.any fun l => ! lock_expired now l

/-- Modelled from the spec: a fresh record as created on first deposit:
zero deposit, zero counters, empty lock set (spec section 4.3). -/
def init_token_owner_record (realm mint owner : Identity) : TokenOwnerRecord :=
  { realm := realm
    governing_token_mint := mint
    governing_token_owner := owner
    deposit_amount := 0
    unrelinquished_votes_count := 0
    outstanding_proposal_count := 0
    locks := [] }

/-- Modelled from the spec: the deposit operation (spec section 4.3).  It
requires a positive amount covered by the source account, transfers it from
the source to the realm holding account and increments `deposit_amount`.
It receives the governing token's configured type but imposes no policy
restriction: deposits are permitted regardless of `token_type`. -/
def deposit_governing_tokens (amount : Nat)
    (token_type : GoverningTokenType) (st : CustodyState) :
    Option CustodyState :=
  match token_type with
  | _ =>
    if amount = 0 then none
    else if st.source_amount < amount then none
    else
      some
        { record :=
            { st.record with
              deposit_amount := st.record.deposit_amount + amount }
          holding_amount := st.holding_amount + amount
          source_amount := st.source_amount - amount }

/-- Modelled from the spec: the WithdrawalGuard algorithm of spec section 4.2,
with its checks in the listed first-match-wins order: signer, record
identity, holding-account identity, Membership policy, vote clearance,
proposal clearance, lock check; on passing all checks it transfers the whole
deposit from the holding account to the destination and zeroes
`deposit_amount`. -/
def withdraw_governing_tokens (program_id : Identity)
    (token_type : GoverningTokenType) (now : Nat)
    (req : WithdrawRequest) (st : CustodyState) :
    Except GovernanceError CustodyState :=
  if req.owner_signed = false then
    .error .OwnerMustSign
  else if req.token_owner_record_address ≠
      get_token_owner_record_address program_id req.realm
        req.governing_token_mint req.governing_token_owner then
    .error .InvalidRecordAddress
  else if req.holding_account ≠
      get_governing_token_holding_address program_id req.realm
        req.governing_token_mint then
    .error .InvalidHoldingAccount
  else if token_type = GoverningTokenType.Membership then
    .error .CannotWithdrawMembershipTokens
  else if st.record.unrelinquished_votes_count ≠ 0 then
    .error .VotesMustBeRelinquished
  else if st.record.outstanding_proposal_count ≠ 0 then
    .error .ProposalsMustBeFinalised
  else if has_unexpired_lock now st.record then
    .error .RecordLocked
  else
    .ok
      { record := { st.record with deposit_amount := 0 }
        holding_amount := st.holding_amount - st.record.deposit_amount
        source_amount := st.source_amount + st.record.deposit_amount }

/-- Modelled from the spec: the hosting environment executes each operation
all-or-nothing (spec section 5), so a failed withdrawal leaves the state
unchanged; this applies a withdrawal result to the state. -/
def apply_withdraw (program_id : Identity) (token_type : GoverningTokenType)
    (now : Nat) (req : WithdrawRequest) (st : CustodyState) : CustodyState :=
  match withdraw_governing_tokens program_id token_type now req st with
  | .ok st1 => st1
  | .error _ => st

/-- Modelled from the spec: casting a vote increments the voter record's
`unrelinquished_votes_count`; the guard consults only this denormalized
counter, never the VoteRecord itself (spec section 4.5). -/
def cast_vote (r : TokenOwnerRecord) : TokenOwnerRecord :=
  { r with unrelinquished_votes_count := r.unrelinquished_votes_count + 1 }

/-- Modelled from the spec: relinquishing a cast vote decrements the record's
`unrelinquished_votes_count` (spec section 4.5). -/
def relinquish_vote (r : TokenOwnerRecord) : TokenOwnerRecord :=
  { r with unrelinquished_votes_count := r.unrelinquished_votes_count - 1 }

/-- Modelled from the spec: an outstanding (signed-off, not yet decided)
proposal is counted in the record's `outstanding_proposal_count`
(spec sections 3 and 4.5). -/
def add_outstanding_proposal (r : TokenOwnerRecord) : TokenOwnerRecord :=
  { r with outstanding_proposal_count := r.outstanding_proposal_count + 1 }

/-- Modelled from the spec: proposal cancellation (a terminal state)
decrements `outstanding_proposal_count` on every contributing record exactly
once (spec sections 3 and 4.5). -/
def cancel_proposal (r : TokenOwnerRecord) : TokenOwnerRecord :=
  { r with outstanding_proposal_count := r.outstanding_proposal_count - 1 }

/-- Sample program identity used by the concrete instances below. -/
def sampleProgram : Identity := 3

/-- Sample record with a 100-token deposit and all clearances satisfied. -/
def sampleRecord : TokenOwnerRecord :=
  { realm := 5
    governing_token_mint := 7
    governing_token_owner := 11
    deposit_amount := 100
    unrelinquished_votes_count := 0
    outstanding_proposal_count := 0
    locks := [] }

/-- Sample custody state holding the sample record's deposit. -/
def sampleState : CustodyState :=
  { record := sampleRecord
    holding_amount := 100
    source_amount := 0 }

/-- Sample well-formed withdrawal request for the sample record: signed by the
owner and carrying the canonical derived addresses. -/
def sampleRequest : WithdrawRequest :=
  { realm := 5
    governing_token_mint := 7
    governing_token_owner := 11
    holding_account := get_governing_token_holding_address sampleProgram 5 7
    destination_account := 13
    token_owner_record_address :=
      get_token_owner_record_address sampleProgram 5 7 11
    owner_signed := true }

/-- Sample state after withdrawing the sample state's full deposit. -/
def sampleWithdrawn : CustodyState :=
  { record := { sampleRecord with deposit_amount := 0 }
    holding_amount := 0
    source_amount := 100 }

/-- Sample state with a fresh (zero-deposit) record and a funded source
account, ready for a first deposit. -/
def sampleFunded : CustodyState :=
  { record := init_token_owner_record 5 7 11
    holding_amount := 0
    source_amount := 100 }

/-- Sample state whose record satisfies every clearance condition but holds a
zero deposit. -/
def sampleZeroState : CustodyState :=
  { record := { sampleRecord with deposit_amount := 0 }
    holding_amount := 40
    source_amount := 60 }

/-- Sample request whose supplied record address is not the canonical derived
address. -/
def mismatchRecordRequest : WithdrawRequest :=
  { sampleRequest with token_owner_record_address := 999 }

/-- Sample request whose supplied holding account is not the realm's canonical
holding account. -/
def mismatchHoldingRequest : WithdrawRequest :=
  { sampleRequest with holding_account := 998 }

end Governance

namespace TokenLendingCli

/-- Embeds the CLI `Config` of src/token-lending/cli/src/main.rs restricted to
what the modelled command consults: the payer's identity, the balance the RPC
client reports for the payer, and the dry-run flag. -/
structure Config where
  payer : Nat
  payer_balance : Nat
  dry_run : Bool
deriving DecidableEq, Repr

/-- The insufficient-balance message `check_payer_balance` formats from the
payer, the required balance and the available balance. -/
def insufficient_balance_message (config : Config)
    (required_balance : Nat) : String :=
  "Fee payer, " ++ toString config.payer ++
    ", has insufficient balance: " ++ toString required_balance ++
    " required, " ++ toString config.payer_balance ++ " available"

/-- Embeds `check_payer_balance` from src/token-lending/cli/src/main.rs: reads
the payer's balance from the RPC client and errors when it is below the
required balance. -/
def check_payer_balance (config : Config) (required_balance : Nat) :
    Except String Unit :=
  if config.payer_balance < required_balance then
    .error (insufficient_balance_message config required_balance)
  else
    .ok ()

/-- The two instructions the create-market transaction carries: the system
program's account creation and the lending program's market
initialization, with the fields the CLI fills in. -/
inductive Instruction
  | create_account (funding_address new_address lamports space owner : Nat)
  | init_lending_market
      (lending_market lending_market_owner quote_token_mint : Nat)
deriving DecidableEq, Repr

/-- Embeds `Transaction::new_with_payer`: the instruction list plus the fee
payer. -/
structure Transaction where
  instructions : List Instruction
  payer : Nat
deriving DecidableEq, Repr

/-- Outcome of `send_transaction`: under dry-run the transaction is only
simulated; otherwise it is sent and confirmed. -/
inductive SendOutcome
  | simulated (tx : Transaction)
  | sent (tx : Transaction)
deriving DecidableEq, Repr

/-- Embeds `send_transaction` from src/token-lending/cli/src/main.rs. -/
def send_transaction (config : Config) (tx : Transaction) : SendOutcome :=
  if config.dry_run then .simulated tx else .sent tx

/-- The transaction `command_create_lending_market` builds: create the
lending-market account funded with the rent-exemption balance, then
initialize it; the CLI's payer pays the fee. -/
def create_lending_market_transaction (config : Config)
    (lending_market_pubkey lending_market_owner quote_token_mint : Nat)
    (lending_market_balance lending_market_len program_id : Nat) :
    Transaction :=
  { instructions :=
      [ .create_account config.payer lending_market_pubkey
          lending_market_balance lending_market_len program_id
      , .init_lending_market lending_market_pubkey lending_market_owner
          quote_token_mint ]
    payer := config.payer }

/-- Embeds `command_create_lending_market` from
src/token-lending/cli/src/main.rs.  Values the command obtains from outside
are parameters: `lending_market_pubkey` is the fresh keypair's identity,
`lending_market_balance` is the RPC rent-exemption minimum for
`LendingMarket::LEN` (`lending_market_len`) bytes, and `fee` is the fee
calculator's fee for the transaction's message.  The payer-balance check runs
on `lending_market_balance + fee` before the transaction is signed or sent;
only when it passes is the transaction forwarded to `send_transaction`. -/
def command_create_lending_market (config : Config)
    (lending_market_pubkey lending_market_owner quote_token_mint : Nat)
    (lending_market_balance lending_market_len program_id fee : Nat) :
    Except String SendOutcome :=
  let tx := create_lending_market_transaction config lending_market_pubkey
    lending_market_owner quote_token_mint lending_market_balance
    lending_market_len program_id
  match check_payer_balance config (lending_market_balance + fee) with
  | .error e => .error e
  | .ok _ => .ok (send_transaction config tx)

/-- Sample CLI configuration used by the concrete instances below. -/
def sampleCliConfig : Config :=
  { payer := 42
    payer_balance := 1000
    dry_run := true }

end TokenLendingCli

namespace Governance

/-- The record-address derivation is injective in the owner seed: records of
different owners have different canonical addresses. -/
theorem get_token_owner_record_address_inj
    (program_id realm mint o1 o2 : Identity) :
    get_token_owner_record_address program_id realm mint o1 =
      get_token_owner_record_address program_id realm mint o2 ↔ o1 = o2 := by
  simp [get_token_owner_record_address, Nat.pair_eq_pair]

/-- When the signer and both identity checks pass and every custody clearance
holds, the guard commits: it zeroes the deposit and moves it from the holding
account to the destination. -/
theorem withdraw_ok_eq (program_id : Identity)
    (token_type : GoverningTokenType) (now : Nat)
    (req : WithdrawRequest) (st : CustodyState)
    (hsig : req.owner_signed = true)
    (hrec : req.token_owner_record_address =
      get_token_owner_record_address program_id req.realm
        req.governing_token_mint req.governing_token_owner)
    (hhold : req.holding_account =
      get_governing_token_holding_address program_id req.realm
        req.governing_token_mint)
    (ht : token_type ≠ GoverningTokenType.Membership)
    (hv : st.record.unrelinquished_votes_count = 0)
    (hp : st.record.outstanding_proposal_count = 0)
    (hl : has_unexpired_lock now st.record = false) :
    withdraw_governing_tokens program_id token_type now req st =
      .ok
        { record := { st.record with deposit_amount := 0 }
          holding_amount := st.holding_amount - st.record.deposit_amount
          source_amount := st.source_amount + st.record.deposit_amount } := by
  simp [withdraw_governing_tokens, hsig, hrec, hhold, ht, hv, hp, hl]

/-- With the signer and identity checks passing, a Membership-typed
withdrawal fails at the policy check. -/
theorem withdraw_membership_error (program_id : Identity) (now : Nat)
    (req : WithdrawRequest) (st : CustodyState)
    (hsig : req.owner_signed = true)
    (hrec : req.token_owner_record_address =
      get_token_owner_record_address program_id req.realm
        req.governing_token_mint req.governing_token_owner)
    (hhold : req.holding_account =
      get_governing_token_holding_address program_id req.realm
        req.governing_token_mint) :
    withdraw_governing_tokens program_id GoverningTokenType.Membership now
        req st =
      .error .CannotWithdrawMembershipTokens := by
  simp [withdraw_governing_tokens, hsig, hrec, hhold]

/-- With the earlier checks passing, a nonzero unrelinquished-votes counter
fails the vote-clearance check. -/
theorem withdraw_votes_error (program_id : Identity)
    (token_type : GoverningTokenType) (now : Nat)
    (req : WithdrawRequest) (st : CustodyState)
    (hsig : req.owner_signed = true)
    (hrec : req.token_owner_record_address =
      get_token_owner_record_address program_id req.realm
        req.governing_token_mint req.governing_token_owner)
    (hhold : req.holding_account =
      get_governing_token_holding_address program_id req.realm
        req.governing_token_mint)
    (ht : token_type ≠ GoverningTokenType.Membership)
    (hv : st.record.unrelinquished_votes_count ≠ 0) :
    withdraw_governing_tokens program_id token_type now req st =
      .error .VotesMustBeRelinquished := by
  simp [withdraw_governing_tokens, hsig, hrec, hhold, ht, hv]

/-- With the earlier checks passing and votes cleared, a nonzero
outstanding-proposal counter fails the proposal-clearance check. -/
theorem withdraw_proposals_error (program_id : Identity)
    (token_type : GoverningTokenType) (now : Nat)
    (req : WithdrawRequest) (st : CustodyState)
    (hsig : req.owner_signed = true)
    (hrec : req.token_owner_record_address =
      get_token_owner_record_address program_id req.realm
        req.governing_token_mint req.governing_token_owner)
    (hhold : req.holding_account =
      get_governing_token_holding_address program_id req.realm
        req.governing_token_mint)
    (ht : token_type ≠ GoverningTokenType.Membership)
    (hv : st.record.unrelinquished_votes_count = 0)
    (hp : st.record.outstanding_proposal_count ≠ 0) :
    withdraw_governing_tokens program_id token_type now req st =
      .error .ProposalsMustBeFinalised := by
  simp [withdraw_governing_tokens, hsig, hrec, hhold, ht, hv, hp]

/-- With the earlier checks passing and both counters cleared, an unexpired
lock fails the lock check. -/
theorem withdraw_locked_error (program_id : Identity)
    (token_type : GoverningTokenType) (now : Nat)
    (req : WithdrawRequest) (st : CustodyState)
    (hsig : req.owner_signed = true)
    (hrec : req.token_owner_record_address =
      get_token_owner_record_address program_id req.realm
        req.governing_token_mint req.governing_token_owner)
    (hhold : req.holding_account =
      get_governing_token_holding_address program_id req.realm
        req.governing_token_mint)
    (ht : token_type ≠ GoverningTokenType.Membership)
    (hv : st.record.unrelinquished_votes_count = 0)
    (hp : st.record.outstanding_proposal_count = 0)
    (hl : has_unexpired_lock now st.record = true) :
    withdraw_governing_tokens program_id token_type now req st =
      .error .RecordLocked := by
  simp [withdraw_governing_tokens, hsig, hrec, hhold, ht, hv, hp, hl]

/-- A failed withdrawal applies as the identity on the state. -/
theorem apply_withdraw_of_error (program_id : Identity)
    (token_type : GoverningTokenType) (now : Nat)
    (req : WithdrawRequest) (st : CustodyState) (e : GovernanceError)
    (h : withdraw_governing_tokens program_id token_type now req st =
      .error e) :
    apply_withdraw program_id token_type now req st = st := by
  simp [apply_withdraw, h]

/-- C1: with the signer and the two identity checks passing, a withdrawal
succeeds iff the record has no unrelinquished votes, no outstanding
proposals and no unexpired lock and the configured token type is not
Membership; each violated condition produces its own error kind (first match
wins in the guard's listed order) and any failure leaves `deposit_amount`
unchanged. -/
theorem withdraw_success_characterization (program_id : Identity)
    (token_type : GoverningTokenType) (now : Nat)
    (req : WithdrawRequest) (st : CustodyState)
    (hsig : req.owner_signed = true)
    (hrec : req.token_owner_record_address =
      get_token_owner_record_address program_id req.realm
        req.governing_token_mint req.governing_token_owner)
    (hhold : req.holding_account =
      get_governing_token_holding_address program_id req.realm
        req.governing_token_mint) :
    ((∃ st1, withdraw_governing_tokens program_id token_type now req st =
        .ok st1) ↔
      (st.record.unrelinquished_votes_count = 0 ∧
       st.record.outstanding_proposal_count = 0 ∧
       has_unexpired_lock now st.record = false ∧
       token_type ≠ GoverningTokenType.Membership)) ∧
    (token_type = GoverningTokenType.Membership →
      withdraw_governing_tokens program_id token_type now req st =
        .error .CannotWithdrawMembershipTokens) ∧
    (token_type ≠ GoverningTokenType.Membership →
      st.record.unrelinquished_votes_count ≠ 0 →
      withdraw_governing_tokens program_id token_type now req st =
        .error .VotesMustBeRelinquished) ∧
    (token_type ≠ GoverningTokenType.Membership →
      st.record.unrelinquished_votes_count = 0 →
      st.record.outstanding_proposal_count ≠ 0 →
      withdraw_governing_tokens program_id token_type now req st =
        .error .ProposalsMustBeFinalised) ∧
    (token_type ≠ GoverningTokenType.Membership →
      st.record.unrelinquished_votes_count = 0 →
      st.record.outstanding_proposal_count = 0 →
      has_unexpired_lock now st.record = true →
      withdraw_governing_tokens program_id token_type now req st =
        .error .RecordLocked) ∧
    (∀ e, withdraw_governing_tokens program_id token_type now req st =
        .error e →
      (apply_withdraw program_id token_type now req st).record.deposit_amount
        = st.record.deposit_amount) := by
  refine ⟨?_, ?_, ?_, ?_, ?_, ?_⟩
  · constructor
    · rintro ⟨st1, hok⟩
      by_cases hm : token_type = GoverningTokenType.Membership
      · subst hm
        rw [withdraw_membership_error program_id now req st hsig hrec hhold]
          at hok
        exact absurd hok (by simp)
      by_cases hv : st.record.unrelinquished_votes_count = 0
      · by_cases hp : st.record.outstanding_proposal_count = 0
        · by_cases hl : has_unexpired_lock now st.record = true
          · rw [withdraw_locked_error program_id token_type now req st hsig
              hrec hhold hm hv hp hl] at hok
            exact absurd hok (by simp)
          · exact ⟨hv, hp, by simpa using hl, hm⟩
        · rw [withdraw_proposals_error program_id token_type now req st hsig
            hrec hhold hm hv hp] at hok
          exact absurd hok (by simp)
      · rw [withdraw_votes_error program_id token_type now req st hsig hrec
          hhold hm hv] at hok
        exact absurd hok (by simp)
    · rintro ⟨hv, hp, hl, hm⟩
      exact ⟨_, withdraw_ok_eq program_id token_type now req st hsig hrec
        hhold hm hv hp hl⟩
  · intro hm
    subst hm
    exact withdraw_membership_error program_id now req st hsig hrec hhold
  · intro hm hv
    exact withdraw_votes_error program_id token_type now req st hsig hrec
      hhold hm hv
  · intro hm hv hp
    exact withdraw_proposals_error program_id token_type now req st hsig
      hrec hhold hm hv hp
  · intro hm hv hp hl
    exact withdraw_locked_error program_id token_type now req st hsig hrec
      hhold hm hv hp hl
  · intro e he
    rw [apply_withdraw_of_error program_id token_type now req st e he]

/-- Witness for C1: a concrete Membership-typed withdrawal on a fully cleared
record still fails with the policy error. -/
theorem withdraw_success_characterization_witness :
    withdraw_governing_tokens sampleProgram GoverningTokenType.Membership 0
        sampleRequest sampleState =
      .error .CannotWithdrawMembershipTokens :=
  (withdraw_success_characterization sampleProgram
    GoverningTokenType.Membership 0 sampleRequest sampleState rfl rfl
    rfl).2.1 rfl

/-- Inversion: any successful withdrawal result is exactly the committed
transfer: zeroed deposit, holding debited and destination credited by the
pre-withdrawal deposit. -/
theorem withdraw_ok_inv (program_id : Identity)
    (token_type : GoverningTokenType) (now : Nat)
    (req : WithdrawRequest) (st st1 : CustodyState)
    (hok : withdraw_governing_tokens program_id token_type now req st =
      .ok st1) :
    st1 =
      { record := { st.record with deposit_amount := 0 }
        holding_amount := st.holding_amount - st.record.deposit_amount
        source_amount := st.source_amount + st.record.deposit_amount } := by
  unfold withdraw_governing_tokens at hok
  repeat' split at hok
  all_goals simp_all

/-- Inversion: a successful deposit has a positive amount covered by the
source and moves it from the source to the holding account while adding it to
the record's deposit. -/
theorem deposit_some_inv (amount : Nat) (token_type : GoverningTokenType)
    (st st2 : CustodyState)
    (h : deposit_governing_tokens amount token_type st = some st2) :
    amount ≠ 0 ∧ amount ≤ st.source_amount ∧
    st2 =
      { record :=
          { st.record with
            deposit_amount := st.record.deposit_amount + amount }
        holding_amount := st.holding_amount + amount
        source_amount := st.source_amount - amount } := by
  unfold deposit_governing_tokens at h
  repeat' split at h
  all_goals simp_all

/-- C2: a successful withdrawal zeroes the record's deposit, debits the
holding account by the full pre-withdrawal deposit and credits the
destination by exactly that amount; and a deposit on a zero-deposit record
followed immediately by a successful withdrawal restores the source account
and the holding account to their pre-deposit balances. -/
theorem withdraw_returns_full_deposit (program_id : Identity)
    (token_type : GoverningTokenType) (now : Nat)
    (req : WithdrawRequest) (st st1 : CustodyState)
    (hok : withdraw_governing_tokens program_id token_type now req st =
      .ok st1)
    (hfund : st.record.deposit_amount ≤ st.holding_amount) :
    (st1.record.deposit_amount = 0 ∧
     st1.holding_amount + st.record.deposit_amount = st.holding_amount ∧
     st1.source_amount = st.source_amount + st.record.deposit_amount) ∧
    (∀ (amount : Nat) (st0 st2 st3 : CustodyState) (req2 : WithdrawRequest),
      st0.record.deposit_amount = 0 →
      deposit_governing_tokens amount token_type st0 = some st2 →
      withdraw_governing_tokens program_id token_type now req2 st2 =
        .ok st3 →
      st3.source_amount = st0.source_amount ∧
      st3.holding_amount = st0.holding_amount ∧
      st3.record.deposit_amount = 0) := by
  constructor
  · rw [withdraw_ok_inv program_id token_type now req st st1 hok]
    refine ⟨rfl, ?_, rfl⟩
    exact Nat.sub_add_cancel hfund
  · intro amount st0 st2 st3 req2 hz hdep hwd
    obtain ⟨hpos, hle, hst2⟩ :=
      deposit_some_inv amount token_type st0 st2 hdep
    rw [withdraw_ok_inv program_id token_type now req2 st2 st3 hwd, hst2]
    simp [hz]
    omega

/-- C3: deposits carry no token-type policy restriction (in particular
Membership-typed and Dormant-typed deposits succeed); a Membership-typed
withdrawal never succeeds and, once the signer and identity checks pass,
fails with `CannotWithdrawMembershipTokens`; a Dormant-typed withdrawal
succeeds under the normal clearance conditions. -/
theorem membership_dormant_policy (program_id : Identity) (now : Nat)
    (req : WithdrawRequest) (st : CustodyState) :
    (∀ (token_type : GoverningTokenType) (amount : Nat) (st0 : CustodyState),
      amount ≠ 0 → amount ≤ st0.source_amount →
      (deposit_governing_tokens amount token_type st0).isSome = true) ∧
    (∀ st1, withdraw_governing_tokens program_id
        GoverningTokenType.Membership now req st ≠ .ok st1) ∧
    (req.owner_signed = true →
      req.token_owner_record_address =
        get_token_owner_record_address program_id req.realm
          req.governing_token_mint req.governing_token_owner →
      req.holding_account =
        get_governing_token_holding_address program_id req.realm
          req.governing_token_mint →
      withdraw_governing_tokens program_id GoverningTokenType.Membership now
          req st =
        .error .CannotWithdrawMembershipTokens) ∧
    (req.owner_signed = true →
      req.token_owner_record_address =
        get_token_owner_record_address program_id req.realm
          req.governing_token_mint req.governing_token_owner →
      req.holding_account =
        get_governing_token_holding_address program_id req.realm
          req.governing_token_mint →
      st.record.unrelinquished_votes_count = 0 →
      st.record.outstanding_proposal_count = 0 →
      has_unexpired_lock now st.record = false →
      ∃ st1, withdraw_governing_tokens program_id
        GoverningTokenType.Dormant now req st = .ok st1) := by
  refine ⟨?_, ?_, ?_, ?_⟩
  · intro token_type amount st0 hpos hle
    simp [deposit_governing_tokens, hpos, Nat.not_lt.mpr hle]
  · intro st1 h
    unfold withdraw_governing_tokens at h
    repeat' split at h
    all_goals simp_all
  · intro hsig hrec hhold
    exact withdraw_membership_error program_id now req st hsig hrec hhold
  · intro hsig hrec hhold hv hp hl
    exact ⟨_, withdraw_ok_eq program_id GoverningTokenType.Dormant now req
      st hsig hrec hhold (by simp) hv hp hl⟩

/-- Witness for C2: withdrawing the sample 100-token deposit zeroes the
record and moves the 100 tokens from the holding account to the source. -/
theorem withdraw_returns_full_deposit_witness :
    sampleWithdrawn.record.deposit_amount = 0 ∧
    sampleWithdrawn.holding_amount + sampleState.record.deposit_amount =
      sampleState.holding_amount ∧
    sampleWithdrawn.source_amount =
      sampleState.source_amount + sampleState.record.deposit_amount :=
  (withdraw_returns_full_deposit sampleProgram GoverningTokenType.Liquid 0
    sampleRequest sampleState sampleWithdrawn rfl (by decide)).1

/-- Witness for C3: a concrete Membership-typed deposit of 50 tokens into a
funded fresh record succeeds. -/
theorem membership_dormant_policy_witness :
    (deposit_governing_tokens 50 GoverningTokenType.Membership
      sampleFunded).isSome = true :=
  (membership_dormant_policy sampleProgram 0 sampleRequest sampleState).1
    GoverningTokenType.Membership 50 sampleFunded (by decide) (by decide)

/-- Relinquishing the vote just cast restores the record. -/
theorem relinquish_cast_vote (r : TokenOwnerRecord) :
    relinquish_vote (cast_vote r) = r := by
  cases r
  simp [cast_vote, relinquish_vote]

/-- Cancelling the proposal just counted restores the record. -/
theorem cancel_add_proposal (r : TokenOwnerRecord) :
    cancel_proposal (add_outstanding_proposal r) = r := by
  cases r
  simp [add_outstanding_proposal, cancel_proposal]

/-- C4: after casting a vote, withdrawal fails with
`VotesMustBeRelinquished`; after relinquishing that vote (no other blocking
condition holding), withdrawal succeeds and returns the full deposited
amount to the destination. -/
theorem vote_blocks_withdrawal (program_id : Identity)
    (token_type : GoverningTokenType) (now : Nat)
    (req : WithdrawRequest) (st : CustodyState)
    (hsig : req.owner_signed = true)
    (hrec : req.token_owner_record_address =
      get_token_owner_record_address program_id req.realm
        req.governing_token_mint req.governing_token_owner)
    (hhold : req.holding_account =
      get_governing_token_holding_address program_id req.realm
        req.governing_token_mint)
    (ht : token_type ≠ GoverningTokenType.Membership)
    (hv : st.record.unrelinquished_votes_count = 0)
    (hp : st.record.outstanding_proposal_count = 0)
    (hl : has_unexpired_lock now st.record = false) :
    withdraw_governing_tokens program_id token_type now req
        { st with record := cast_vote st.record } =
      .error .VotesMustBeRelinquished ∧
    withdraw_governing_tokens program_id token_type now req
        { st with record := relinquish_vote (cast_vote st.record) } =
      .ok
        { record := { st.record with deposit_amount := 0 }
          holding_amount := st.holding_amount - st.record.deposit_amount
          source_amount := st.source_amount + st.record.deposit_amount } := by
  constructor
  · exact withdraw_votes_error program_id token_type now req
      { st with record := cast_vote st.record } hsig hrec hhold ht
      (by simp [cast_vote])
  · rw [relinquish_cast_vote]
    exact withdraw_ok_eq program_id token_type now req st hsig hrec hhold
      ht hv hp hl

/-- Witness for C4: casting a vote on the sample record blocks the sample
withdrawal with the vote-clearance error. -/
theorem vote_blocks_withdrawal_witness :
    withdraw_governing_tokens sampleProgram GoverningTokenType.Liquid 0
        sampleRequest
        { sampleState with record := cast_vote sampleState.record } =
      .error .VotesMustBeRelinquished :=
  (vote_blocks_withdrawal sampleProgram GoverningTokenType.Liquid 0
    sampleRequest sampleState rfl rfl rfl (by decide) rfl rfl rfl).1

/-- C5: with an outstanding (not yet finalized) proposal counted on the
record, withdrawal fails with `ProposalsMustBeFinalised`; after the proposal
is cancelled (no other blocking condition holding), withdrawal succeeds and
returns the full deposited amount to the destination. -/
theorem outstanding_proposal_blocks_withdrawal (program_id : Identity)
    (token_type : GoverningTokenType) (now : Nat)
    (req : WithdrawRequest) (st : CustodyState)
    (hsig : req.owner_signed = true)
    (hrec : req.token_owner_record_address =
      get_token_owner_record_address program_id req.realm
        req.governing_token_mint req.governing_token_owner)
    (hhold : req.holding_account =
      get_governing_token_holding_address program_id req.realm
        req.governing_token_mint)
    (ht : token_type ≠ GoverningTokenType.Membership)
    (hv : st.record.unrelinquished_votes_count = 0)
    (hp : st.record.outstanding_proposal_count = 0)
    (hl : has_unexpired_lock now st.record = false) :
    withdraw_governing_tokens program_id token_type now req
        { st with record := add_outstanding_proposal st.record } =
      .error .ProposalsMustBeFinalised ∧
    withdraw_governing_tokens program_id token_type now req
        { st with
          record := cancel_proposal (add_outstanding_proposal st.record) } =
      .ok
        { record := { st.record with deposit_amount := 0 }
          holding_amount := st.holding_amount - st.record.deposit_amount
          source_amount := st.source_amount + st.record.deposit_amount } := by
  constructor
  · exact withdraw_proposals_error program_id token_type now req
      { st with record := add_outstanding_proposal st.record } hsig hrec
      hhold ht (by simp [add_outstanding_proposal, hv])
      (by simp [add_outstanding_proposal])
  · rw [cancel_add_proposal]
    exact withdraw_ok_eq program_id token_type now req st hsig hrec hhold
      ht hv hp hl

/-- Witness for C5: an outstanding proposal on the sample record blocks the
sample withdrawal with the proposal-clearance error. -/
theorem outstanding_proposal_blocks_withdrawal_witness :
    withdraw_governing_tokens sampleProgram GoverningTokenType.Liquid 0
        sampleRequest
        { sampleState with
          record := add_outstanding_proposal sampleState.record } =
      .error .ProposalsMustBeFinalised :=
  (outstanding_proposal_blocks_withdrawal sampleProgram
    GoverningTokenType.Liquid 0 sampleRequest sampleState rfl rfl rfl
    (by decide) rfl rfl rfl).1

/-- C6: a supplied record identity differing from the canonical address
derived from `(realm, governing_token_mint, owner)` is rejected with
`InvalidRecordAddress` with no state mutation, even when the request is
signed; in particular the canonical record address of any other owner is
rejected. -/
theorem record_address_mismatch_rejected (program_id : Identity)
    (token_type : GoverningTokenType) (now : Nat)
    (req : WithdrawRequest) (st : CustodyState)
    (hsig : req.owner_signed = true)
    (hmis : req.token_owner_record_address ≠
      get_token_owner_record_address program_id req.realm
        req.governing_token_mint req.governing_token_owner) :
    (withdraw_governing_tokens program_id token_type now req st =
        .error .InvalidRecordAddress ∧
     apply_withdraw program_id token_type now req st = st) ∧
    (∀ owner2, owner2 ≠ req.governing_token_owner →
      withdraw_governing_tokens program_id token_type now
          { req with
            token_owner_record_address :=
              get_token_owner_record_address program_id req.realm
                req.governing_token_mint owner2 } st =
        .error .InvalidRecordAddress) := by
  constructor
  · have h : withdraw_governing_tokens program_id token_type now req st =
        .error .InvalidRecordAddress := by
      simp [withdraw_governing_tokens, hsig, hmis]
    exact ⟨h, apply_withdraw_of_error program_id token_type now req st _ h⟩
  · intro owner2 hne
    have hmis2 : get_token_owner_record_address program_id req.realm
        req.governing_token_mint owner2 ≠
        get_token_owner_record_address program_id req.realm
          req.governing_token_mint req.governing_token_owner := fun h =>
      hne ((get_token_owner_record_address_inj program_id req.realm
        req.governing_token_mint owner2 req.governing_token_owner).mp h)
    simp [withdraw_governing_tokens, hsig, hmis2]

/-- Witness for C6: a concrete non-canonical record address is rejected and
the state is untouched. -/
theorem record_address_mismatch_rejected_witness :
    withdraw_governing_tokens sampleProgram GoverningTokenType.Liquid 0
        mismatchRecordRequest sampleState =
      .error .InvalidRecordAddress ∧
    apply_withdraw sampleProgram GoverningTokenType.Liquid 0
        mismatchRecordRequest sampleState = sampleState :=
  (record_address_mismatch_rejected sampleProgram GoverningTokenType.Liquid
    0 mismatchRecordRequest sampleState rfl (by decide)).1

/-- C7: a supplied holding account differing from the realm's canonical
holding account for the governing token mint is rejected with
`InvalidHoldingAccount` with no state mutation, whatever other properties
the supplied account has. -/
theorem holding_account_mismatch_rejected (program_id : Identity)
    (token_type : GoverningTokenType) (now : Nat)
    (req : WithdrawRequest) (st : CustodyState)
    (hsig : req.owner_signed = true)
    (hrec : req.token_owner_record_address =
      get_token_owner_record_address program_id req.realm
        req.governing_token_mint req.governing_token_owner)
    (hmis : req.holding_account ≠
      get_governing_token_holding_address program_id req.realm
        req.governing_token_mint) :
    withdraw_governing_tokens program_id token_type now req st =
      .error .InvalidHoldingAccount ∧
    apply_withdraw program_id token_type now req st = st := by
  have h : withdraw_governing_tokens program_id token_type now req st =
      .error .InvalidHoldingAccount := by
    simp [withdraw_governing_tokens, hsig, hrec, hmis]
  exact ⟨h, apply_withdraw_of_error program_id token_type now req st _ h⟩

/-- Witness for C7: a concrete non-canonical holding account is rejected and
the state is untouched. -/
theorem holding_account_mismatch_rejected_witness :
    withdraw_governing_tokens sampleProgram GoverningTokenType.Liquid 0
        mismatchHoldingRequest sampleState =
      .error .InvalidHoldingAccount ∧
    apply_withdraw sampleProgram GoverningTokenType.Liquid 0
        mismatchHoldingRequest sampleState = sampleState :=
  holding_account_mismatch_rejected sampleProgram GoverningTokenType.Liquid
    0 mismatchHoldingRequest sampleState rfl rfl (by decide)

/-- C9: on a fully cleared record whose deposit is already zero, withdrawal
succeeds as a no-op: the transferred amount is zero and the resulting state
(record, holding account and destination) is unchanged. -/
theorem zero_deposit_withdraw_noop (program_id : Identity)
    (token_type : GoverningTokenType) (now : Nat)
    (req : WithdrawRequest) (st : CustodyState)
    (hsig : req.owner_signed = true)
    (hrec : req.token_owner_record_address =
      get_token_owner_record_address program_id req.realm
        req.governing_token_mint req.governing_token_owner)
    (hhold : req.holding_account =
      get_governing_token_holding_address program_id req.realm
        req.governing_token_mint)
    (ht : token_type ≠ GoverningTokenType.Membership)
    (hv : st.record.unrelinquished_votes_count = 0)
    (hp : st.record.outstanding_proposal_count = 0)
    (hl : has_unexpired_lock now st.record = false)
    (hz : st.record.deposit_amount = 0) :
    withdraw_governing_tokens program_id token_type now req st = .ok st := by
  rw [withdraw_ok_eq program_id token_type now req st hsig hrec hhold ht hv
    hp hl]
  obtain ⟨⟨ra, mi, ow, d, v, p, l⟩, hh, ss⟩ := st
  simp_all

/-- Witness for C9: the sample zero-deposit withdrawal returns the state
unchanged. -/
theorem zero_deposit_withdraw_noop_witness :
    withdraw_governing_tokens sampleProgram GoverningTokenType.Liquid 0
        sampleRequest sampleZeroState = .ok sampleZeroState :=
  zero_deposit_withdraw_noop sampleProgram GoverningTokenType.Liquid 0
    sampleRequest sampleZeroState rfl rfl rfl (by decide) rfl rfl rfl rfl

/-- C8: a withdrawal request not co-signed by the token owner fails with
`OwnerMustSign` and mutates no state. -/
theorem withdraw_unsigned_owner_must_sign (program_id : Identity)
    (token_type : GoverningTokenType) (now : Nat)
    (req : WithdrawRequest) (st : CustodyState)
    (h : req.owner_signed = false) :
    withdraw_governing_tokens program_id token_type now req st =
      .error .OwnerMustSign ∧
    apply_withdraw program_id token_type now req st = st := by
  constructor
  · simp [withdraw_governing_tokens, h]
  · simp [apply_withdraw, withdraw_governing_tokens, h]

/-- Witness for C8 at a concrete unsigned request. -/
theorem withdraw_unsigned_owner_must_sign_witness :
    withdraw_governing_tokens sampleProgram .Liquid 0
        { sampleRequest with owner_signed := false } sampleState =
      .error .OwnerMustSign ∧
    apply_withdraw sampleProgram .Liquid 0
        { sampleRequest with owner_signed := false } sampleState =
      sampleState :=
  withdraw_unsigned_owner_must_sign sampleProgram .Liquid 0
    { sampleRequest with owner_signed := false } sampleState rfl

end Governance

namespace TokenLendingCli

/-- C10: create-market requires the payer to hold the LendingMarket
rent-exemption balance plus the transaction fee; below that total it returns
the insufficient-balance error and produces no send or simulation, and any
produced outcome presupposes the check passed and is exactly the dry-run
simulation or the real submission of the two-instruction transaction. -/
theorem create_market_balance_check (config : Config)
    (mkt owner quote balance len pid fee : Nat) :
    (config.payer_balance < balance + fee →
      command_create_lending_market config mkt owner quote balance len pid
          fee =
        .error (insufficient_balance_message config (balance + fee))) ∧
    (balance + fee ≤ config.payer_balance →
      command_create_lending_market config mkt owner quote balance len pid
          fee =
        .ok (send_transaction config
          (create_lending_market_transaction config mkt owner quote balance
            len pid))) ∧
    (∀ outcome,
      command_create_lending_market config mkt owner quote balance len pid
          fee =
        .ok outcome →
      balance + fee ≤ config.payer_balance ∧
      outcome = send_transaction config
        (create_lending_market_transaction config mkt owner quote balance
          len pid)) ∧
    (∀ tx, config.dry_run = true →
      send_transaction config tx = .simulated tx) ∧
    (∀ tx, config.dry_run = false →
      send_transaction config tx = .sent tx) := by
  refine ⟨?_, ?_, ?_, ?_, ?_⟩
  · intro hb
    simp [command_create_lending_market, check_payer_balance, hb]
  · intro hb
    simp [command_create_lending_market, check_payer_balance,
      Nat.not_lt.mpr hb]
  · intro outcome h
    by_cases hb : config.payer_balance < balance + fee
    · simp [command_create_lending_market, check_payer_balance, hb] at h
    · refine ⟨Nat.le_of_not_lt hb, ?_⟩
      simp [command_create_lending_market, check_payer_balance, hb] at h
      exact h.symm
  · intro tx hd1
    simp [send_transaction, hd1]
  · intro tx hd
    simp [send_transaction, hd]

/-- Witness for C10: with a funded payer under dry-run, the command simulates
the two-instruction transaction instead of sending it. -/
theorem create_market_balance_check_witness :
    command_create_lending_market sampleCliConfig 21 22 23 600 290 24 5 =
      .ok (.simulated (create_lending_market_transaction sampleCliConfig 21
        22 23 600 290 24)) := by
  rw [(create_market_balance_check sampleCliConfig 21 22 23 600 290 24
    5).2.1 (by decide)]
  rfl

end TokenLendingCli
